import Mathlib

/-!
Shallow embedding of the battle-automation engine of `gamebots/bot.py`
(class `BattleBot`), restricted to the parts the verified claims concern:
the action invokers (`use_skill`, `use_master_skill`, `attack`), the stage
handler registry (`__add_stage_handler` / `at_stage`), the per-battle stage
loop (`play_battle`) and the multi-battle runner (`run`).

Modelling conventions:
* Pixel coordinates are `Int` (Python ints; distances may be negative in a
  layout file, nothing in the code restricts them).
* Actuation and error reporting are modelled as an explicit event trace
  (`List Event`): taps on computed rectangles (`device.tap_rand`),
  find-and-tap on a named template (`__find_and_tap`), waits
  (`__wait` / `__wait_until`) and `logger.error` calls.  `logger.debug` /
  `logger.info` calls carry no behaviour and are not modelled.
* Python `assert` (used by `attack` and `__add_stage_handler`) raises
  `AssertionError` before any actuation; a function that can fail this way
  returns the events issued so far paired with `Option String` (the pending
  assertion message), or `Except String` when nothing precedes the failure.
* Screen state (`__exists('choose_object')`, `__exists('order_change')`) is
  external input; it is passed in as a `Screen` record of booleans.
* Stage handlers are opaque values of a type parameter `H`; the registry
  `stage_handlers` (a Python dict keyed by stage number) is an association
  list with first-match lookup, insertion appending at the end.
* `while` loops are embedded structurally with an explicit count of the
  remaining iterations, which for both loops in question
  (`play_battle`, `run`) is exactly `bound - counter` at entry.
-/

namespace GameBots

/-- A button rectangle `{x, y, w, h}` from `config/buttons.json`
(`BattleBot.__button`). -/
structure Rect where
  x : Int
  y : Int
  w : Int
  h : Int
deriving DecidableEq

/-- The named controls and per-unit distances of `buttons.json` that the
modelled methods read. -/
structure Buttons where
  skill : Rect
  servant_distance : Int
  skill_distance : Int
  choose_object : Rect
  choose_object_distance : Int
  master_skill_menu : Rect
  master_skill : Rect
  master_skill_distance : Int
  change : Rect
  change_distance : Int
  card : Rect
  noble_card : Rect
  card_distance : Int
deriving DecidableEq

/-- Which of the two optional post-skill prompts is visible on screen:
`__exists('choose_object')` and `__exists('order_change')`. -/
structure Screen where
  choose_object : Bool
  order_change : Bool
deriving DecidableEq

/-- One observable action of the bot: a tap inside a computed rectangle
(`device.tap_rand`), a find-and-tap of a named template
(`__find_and_tap`), a timed wait (`__wait`), a wait-for-template
(`__wait_until`) or a `logger.error` call. -/
inductive Event where
  | tapRect (r : Rect)
  | tapImage (im : String)
  | wait (sec : Nat)
  | waitUntil (im : String)
  | logError (msg : String)
deriving DecidableEq

/-- `BattleBot.use_skill(servant, skill, obj)` (bot.py 330-355): waits for
`attack`, taps the skill button offset from the base `skill` rectangle by
`servant_distance * (servant - 1) + skill_distance * (skill - 1)` (only the
x coordinate is offset), waits, and if the `choose_object` prompt is
visible taps the object slot (or logs an error when `obj` is `None`). -/
def use_skill (b : Buttons) (s : Screen) (servant skill : Int)
    (obj : Option Int) : List Event :=
  [Event.waitUntil "attack",
   Event.tapRect ⟨b.skill.x + b.servant_distance * (servant - 1)
                    + b.skill_distance * (skill - 1),
                  b.skill.y, b.skill.w, b.skill.h⟩,
   Event.wait 1] ++
  (if s.choose_object then
    match obj with
    | none => [Event.logError "Must choose a skill object."]
    | some o =>
        [Event.tapRect ⟨b.choose_object.x + b.choose_object_distance * (o - 1),
                        b.choose_object.y, b.choose_object.w, b.choose_object.h⟩]
   else []) ++
  [Event.wait 1]

/-- The unconditional opening of `BattleBot.use_master_skill`
(bot.py 367-377): wait for `attack`, tap the master-skill menu, wait, tap
the skill slot offset from the base `master_skill` rectangle by
`master_skill_distance * (skill - 1)`, wait. -/
def master_skill_opening (b : Buttons) (skill : Int) : List Event :=
  [Event.waitUntil "attack",
   Event.tapRect b.master_skill_menu,
   Event.wait 1,
   Event.tapRect ⟨b.master_skill.x + b.master_skill_distance * (skill - 1),
                  b.master_skill.y, b.master_skill.w, b.master_skill.h⟩,
   Event.wait 1]

/-- `BattleBot.use_master_skill(skill, obj, obj2)` (bot.py 357-406): after
the opening, branches on which prompt is visible (`choose_object` checked
first, `order_change` only in the `elif`).  Missing or out-of-range
objects are logged as errors with no tap for the unresolved selection; the
function always returns normally. -/
def use_master_skill (b : Buttons) (s : Screen) (skill : Int)
    (obj obj2 : Option Int) : List Event :=
  master_skill_opening b skill ++
  (if s.choose_object then
    match obj with
    | none => [Event.logError "Must choose a master skill object."]
    | some o =>
        if 1 ≤ o ∧ o ≤ 3 then
          [Event.tapRect ⟨b.choose_object.x + b.choose_object_distance * (o - 1),
                          b.choose_object.y, b.choose_object.w, b.choose_object.h⟩]
        else [Event.logError "Invalid master skill object."]
   else if s.order_change then
    match obj, obj2 with
    | some o, some o2 =>
        if 1 ≤ o ∧ o ≤ 3 ∧ 4 ≤ o2 ∧ o2 ≤ 6 then
          [Event.tapRect ⟨b.change.x + b.change_distance * (o - 1),
                          b.change.y, b.change.w, b.change.h⟩,
           Event.tapRect ⟨b.change.x + b.change_distance * (o - 1)
                            + b.change_distance * (o2 - o),
                          b.change.y, b.change.w, b.change.h⟩,
           Event.tapImage "change"]
        else [Event.logError "Invalid master skill object."]
    | _, _ => [Event.logError "Must choose two objects for Order Change."]
   else []) ++
  [Event.wait 1]

/-- The body of the `for card in cards` loop of `BattleBot.attack`
(bot.py 422-432): a tap on the normal-card grid for `1 ≤ card ≤ 5`, on the
noble-phantasm grid for `6 ≤ card ≤ 8`, and a logged error otherwise. -/
def cardEvents (b : Buttons) (card : Int) : List Event :=
  if 1 ≤ card ∧ card ≤ 5 then
    [Event.tapRect ⟨b.card.x + b.card_distance * (card - 1),
                    b.card.y, b.card.w, b.card.h⟩]
  else if 6 ≤ card ∧ card ≤ 8 then
    [Event.tapRect ⟨b.noble_card.x + b.card_distance * (card - 6),
                    b.noble_card.y, b.noble_card.w, b.noble_card.h⟩]
  else
    [Event.logError "Card number must be in range [1, 8]"]

/-- The `for card in cards` loop of `BattleBot.attack`, in list order. -/
def cardsEvents (b : Buttons) : List Int → List Event
  | [] => []
  | c :: rest => cardEvents b c ++ cardsEvents b rest

/-- `BattleBot.attack(cards)` (bot.py 408-433): two `assert` statements
(`len(cards) == 3`, `len(set(cards)) == 3`) run before any actuation; an
assertion failure is the `some msg` component with the empty trace.  When
both pass, the bot waits for `attack`, find-and-taps the attack button,
waits, then taps each card.  `cards.dedup.length` models Python's
`len(set(cards))`. -/
def attack (b : Buttons) (cards : List Int) : List Event × Option String :=
  if cards.length ≠ 3 then
    ([], some "Number of cards must be 3.")
  else if cards.dedup.length ≠ 3 then
    ([], some "Cards must be distinct.")
  else
    ([Event.waitUntil "attack", Event.tapImage "attack", Event.wait 2]
       ++ cardsEvents b cards,
     none)

/-- First-match lookup in the `stage_handlers` dict, modelled as an
association list (`self.stage_handlers.get(stage)` /
`self.stage_handlers[stage]`). -/
def dictGet {H : Type} : List (Nat × H) → Nat → Option H
  | [], _ => none
  | (k, v) :: rest, stage => if k = stage then some v else dictGet rest stage

/-- `BattleBot.__add_stage_handler(stage, f)` (bot.py 145-154), also the
body of the `at_stage` decorator (bot.py 317-328):
`assert not self.stage_handlers.get(stage)` fails iff a handler is already
stored (handler functions are truthy), then stores `f` under `stage`.
There is no check on the range of `stage`. -/
def add_stage_handler {H : Type} (d : List (Nat × H)) (stage : Nat) (f : H) :
    Except String (List (Nat × H)) :=
  if (dictGet d stage).isSome then
    Except.error "Cannot register multiple function to a single stage."
  else
    Except.ok (d ++ [(stage, f)])

/-- The `while stage < self.stage_count` loop of `BattleBot.play_battle`
(bot.py 288-294), with `remaining = stage_count - stage` iterations left.
Each iteration increments `stage`, looks the handler up in the dict
(`self.stage_handlers[stage]`, a `KeyError` when absent) and invokes it;
the trace records each invocation as the pair `(stage, handler)`.
Returns the final value of `stage`. -/
def play_battle_loop {H : Type} (d : List (Nat × H)) :
    Nat → Nat → Except String (List (Nat × H) × Nat)
  | stage, 0 => Except.ok ([], stage)
  | stage, remaining + 1 =>
      match dictGet d (stage + 1) with
      | none => Except.error "KeyError"
      | some f =>
          match play_battle_loop d (stage + 1) remaining with
          | Except.error e => Except.error e
          | Except.ok (tr, r) => Except.ok ((stage + 1, f) :: tr, r)

/-- `BattleBot.play_battle()` (bot.py 281-294): starts at `stage = 0` and
runs the loop for `stage_count` iterations. -/
def play_battle {H : Type} (stage_count : Nat) (d : List (Nat × H)) :
    Except String (List (Nat × H) × Nat) :=
  play_battle_loop d 0 stage_count

/-- The `while (count < max_loops) and (enter_flag == 0)` loop of
`BattleBot.run` (bot.py 455-465), entered only with `enter_flag == 0`,
with `remaining = max_loops - count` iterations left.  `reenter count`
is the outcome of the `__reenter_battle()` call before the
`count`-th increment; a failed re-enter breaks out of the loop. -/
def run_loop (reenter : Nat → Bool) : Nat → Nat → Nat
  | count, 0 => count
  | count, remaining + 1 =>
      if reenter count then run_loop reenter (count + 1) remaining else count

/-- `BattleBot.run(max_loops)` (bot.py 435-470): `count` starts at 0; a
failed `__enter_battle()` sets `enter_flag = 1`, skipping both the initial
battle and the loop.  The final `logger.info` call divides the total time
by `count`; with `count = 0` this raises `ZeroDivisionError` (there is no
guard in the code), modelled as the error case.  Otherwise the completed
battle count is returned (wall-clock times carry no further behaviour and
are not modelled). -/
def run (enter : Bool) (reenter : Nat → Bool) (max_loops : Nat) :
    Except String Nat :=
  let enter_flag : Nat := if enter then 0 else 1
  let count : Nat := if enter_flag = 0 then 1 else 0
  let count : Nat :=
    if enter_flag = 0 then run_loop reenter count (max_loops - count) else count
  if count = 0 then Except.error "ZeroDivisionError" else Except.ok count

/-- Trace observation: is the event a tap inside a computed rectangle
(`device.tap_rand`)?  Card taps in `attack` are exactly these. -/
def isTap : Event → Bool
  | Event.tapRect _ => true
  | _ => false

/-- Trace observation: is the event a `logger.error` call? -/
def isErrorLog : Event → Bool
  | Event.logError _ => true
  | _ => false

/-- A concrete button layout with pairwise distinct distances, standing in
for a loaded `buttons.json`; used only to instantiate universally
quantified theorems at a concrete input. -/
def sampleButtons : Buttons where
  skill := ⟨100, 500, 40, 40⟩
  servant_distance := 300
  skill_distance := 90
  choose_object := ⟨200, 300, 50, 50⟩
  choose_object_distance := 120
  master_skill_menu := ⟨1200, 100, 30, 30⟩
  master_skill := ⟨1000, 120, 40, 40⟩
  master_skill_distance := 80
  change := ⟨150, 350, 60, 60⟩
  change_distance := 170
  card := ⟨130, 600, 80, 80⟩
  noble_card := ⟨400, 200, 80, 80⟩
  card_distance := 250

/-- Python's `len(set(l)) == len(l)` test: the deduplicated length equals
the length exactly on duplicate-free lists. -/
theorem dedup_length_eq_iff (l : List Int) : l.dedup.length = l.length ↔ l.Nodup :=
  ⟨fun h => List.dedup_eq_self.1 (l.dedup_sublist.eq_of_length h),
   fun h => by rw [List.dedup_eq_self.2 h]⟩

/-- The card loop body issues exactly one rectangle tap for an in-range
card and none otherwise. -/
theorem cardEvents_countP_isTap (b : Buttons) (c : Int) :
    (cardEvents b c).countP isTap = if 1 ≤ c ∧ c ≤ 8 then 1 else 0 := by
  unfold cardEvents
  by_cases h1 : 1 ≤ c ∧ c ≤ 5
  · rw [if_pos h1, if_pos ⟨h1.1, by omega⟩]; rfl
  · rw [if_neg h1]
    by_cases h2 : 6 ≤ c ∧ c ≤ 8
    · rw [if_pos h2, if_pos ⟨by omega, h2.2⟩]; rfl
    · rw [if_neg h2, if_neg (by omega)]; rfl

/-- The card loop body logs exactly one error for an out-of-range card and
none otherwise. -/
theorem cardEvents_countP_isErrorLog (b : Buttons) (c : Int) :
    (cardEvents b c).countP isErrorLog = if 1 ≤ c ∧ c ≤ 8 then 0 else 1 := by
  unfold cardEvents
  by_cases h1 : 1 ≤ c ∧ c ≤ 5
  · rw [if_pos h1, if_pos ⟨h1.1, by omega⟩]; rfl
  · rw [if_neg h1]
    by_cases h2 : 6 ≤ c ∧ c ≤ 8
    · rw [if_pos h2, if_pos ⟨by omega, h2.2⟩]; rfl
    · rw [if_neg h2, if_neg (by omega)]; rfl

/-- Rectangle taps of the card loop, counted over the whole list. -/
theorem cardsEvents_countP_isTap (b : Buttons) (cards : List Int) :
    (cardsEvents b cards).countP isTap =
      cards.countP (fun c => decide (1 ≤ c ∧ c ≤ 8)) := by
  induction cards with
  | nil => rfl
  | cons c rest ih =>
      rw [cardsEvents, List.countP_append, ih, List.countP_cons,
        cardEvents_countP_isTap]
      by_cases h : 1 ≤ c ∧ c ≤ 8
      · rw [if_pos h]; simp [h]; omega
      · rw [if_neg h]; simp [h]

/-- Logged errors of the card loop, counted over the whole list. -/
theorem cardsEvents_countP_isErrorLog (b : Buttons) (cards : List Int) :
    (cardsEvents b cards).countP isErrorLog =
      cards.countP (fun c => !(decide (1 ≤ c ∧ c ≤ 8))) := by
  induction cards with
  | nil => rfl
  | cons c rest ih =>
      rw [cardsEvents, List.countP_append, ih, List.countP_cons,
        cardEvents_countP_isErrorLog]
      by_cases h : 1 ≤ c ∧ c ≤ 8
      · rw [if_pos h]; simp [h]
      · rw [if_neg h]; simp [h]; omega

/-- C3: for every card list whose length differs from 3 or that contains
duplicate values, `attack` stops on a failed `assert` (a fatal
precondition violation) having issued no event at all — in particular no
attack-button tap and no card tap. -/
theorem attack_bad_cards_fatal_no_taps (b : Buttons) (cards : List Int)
    (h : cards.length ≠ 3 ∨ ¬ cards.Nodup) :
    (attack b cards).1 = [] ∧ (attack b cards).2.isSome := by
  unfold attack
  by_cases hl : cards.length = 3
  · have hnd : ¬ cards.Nodup := by
      rcases h with h | h
      · exact absurd hl h
      · exact h
    have hd : cards.dedup.length ≠ 3 := fun hdl =>
      hnd ((dedup_length_eq_iff cards).1 (by rw [hdl, hl]))
    rw [if_neg (not_not_intro hl), if_pos hd]
    exact ⟨rfl, rfl⟩
  · rw [if_pos hl]
    exact ⟨rfl, rfl⟩

/-- Witness for C3 at the concrete duplicate list `[1, 1, 2]`. -/
theorem attack_bad_cards_fatal_no_taps_witness :
    (([1, 1, 2] : List Int).length ≠ 3 ∨ ¬ ([1, 1, 2] : List Int).Nodup) ∧
    (attack sampleButtons [1, 1, 2]).1 = [] ∧
    (attack sampleButtons [1, 1, 2]).2.isSome :=
  ⟨by decide, attack_bad_cards_fatal_no_taps sampleButtons [1, 1, 2] (by decide)⟩

/-- C1 counterexample: the list `[0, 1, 2]` has exactly 3 distinct values
with `0` outside `[1, 8]`, yet `attack` raises no assertion (`none` in the
failure component) and issues taps — the out-of-range value is handled by
a logged error and continue, not by a fatal precondition violation. -/
theorem attack_out_of_range_not_fatal :
    (((0 : Int) < 1 ∨ 8 < (0 : Int)) ∧
      ([0, 1, 2] : List Int).length = 3 ∧ ([0, 1, 2] : List Int).Nodup) ∧
    (attack sampleButtons [0, 1, 2]).2 = none ∧
    (attack sampleButtons [0, 1, 2]).1 ≠ [] := by decide

/-- C1 amended: for every card list with exactly 3 distinct values, both
assertions pass and `attack` completes without a fatal failure; each card
in `[1, 8]` gets exactly one rectangle tap and each card outside `[1, 8]`
gets exactly one logged error (`Card number must be in range [1, 8]`) and
no tap. -/
theorem attack_out_of_range_logged_and_continues (b : Buttons)
    (cards : List Int) (hlen : cards.length = 3) (hnd : cards.Nodup) :
    (attack b cards).2 = none ∧
    (attack b cards).1.countP isTap =
      cards.countP (fun c => decide (1 ≤ c ∧ c ≤ 8)) ∧
    (attack b cards).1.countP isErrorLog =
      cards.countP (fun c => !(decide (1 ≤ c ∧ c ≤ 8))) := by
  have hd : cards.dedup.length = 3 := by rw [List.dedup_eq_self.2 hnd, hlen]
  unfold attack
  rw [if_neg (not_not_intro hlen), if_neg (not_not_intro hd)]
  refine ⟨rfl, ?_, ?_⟩
  · rw [List.countP_append, cardsEvents_countP_isTap,
      show List.countP isTap
        [Event.waitUntil "attack", Event.tapImage "attack", Event.wait 2] = 0
        from rfl, Nat.zero_add]
  · rw [List.countP_append, cardsEvents_countP_isErrorLog,
      show List.countP isErrorLog
        [Event.waitUntil "attack", Event.tapImage "attack", Event.wait 2] = 0
        from rfl, Nat.zero_add]

/-- Witness for the amended C1 at `[0, 1, 6]` (one normal card, one noble
phantasm card, one out-of-range value). -/
theorem attack_out_of_range_logged_witness :
    (([0, 1, 6] : List Int).length = 3 ∧ ([0, 1, 6] : List Int).Nodup) ∧
    (attack sampleButtons [0, 1, 6]).2 = none ∧
    (attack sampleButtons [0, 1, 6]).1.countP isTap =
      ([0, 1, 6] : List Int).countP (fun c => decide (1 ≤ c ∧ c ≤ 8)) ∧
    (attack sampleButtons [0, 1, 6]).1.countP isErrorLog =
      ([0, 1, 6] : List Int).countP (fun c => !(decide (1 ≤ c ∧ c ≤ 8))) :=
  ⟨⟨by decide, by decide⟩,
   attack_out_of_range_logged_and_continues sampleButtons [0, 1, 6]
     (by decide) (by decide)⟩

/-- C2: when the initial `__enter_battle()` fails, `run` reaches the final
statistics line with `count = 0` and the average-time division raises
`ZeroDivisionError` — the code has no guard, contradicting the spec's
required behaviour (stop with zero completed battles and terminate
normally). -/
theorem run_enter_failure_zero_division (reenter : Nat → Bool)
    (max_loops : Nat) :
    run false reenter max_loops = Except.error "ZeroDivisionError" := rfl

/-- C5: for every layout, screen, servant and skill, the trace of
`use_skill` opens with the wait followed by a tap whose rectangle has
x-coordinate `skill.x + servant_distance*(servant-1) + skill_distance*(skill-1)`
and whose y, w, h are exactly those of the base skill button. -/
theorem use_skill_tap_rectangle (b : Buttons) (s : Screen)
    (servant skill : Int) (obj : Option Int) :
    ∃ rest, use_skill b s servant skill obj =
      [Event.waitUntil "attack",
       Event.tapRect ⟨b.skill.x + b.servant_distance * (servant - 1)
                        + b.skill_distance * (skill - 1),
                      b.skill.y, b.skill.w, b.skill.h⟩,
       Event.wait 1] ++ rest := by
  refine ⟨(if s.choose_object then
    match obj with
    | none => [Event.logError "Must choose a skill object."]
    | some o =>
        [Event.tapRect ⟨b.choose_object.x + b.choose_object_distance * (o - 1),
                        b.choose_object.y, b.choose_object.w, b.choose_object.h⟩]
   else []) ++ [Event.wait 1], ?_⟩
  simp [use_skill]

/-- A binding appended to the dict is found by lookup when its key was
absent before. -/
theorem dictGet_append_single {H : Type} (d : List (Nat × H)) (stage : Nat)
    (f : H) (h : dictGet d stage = none) :
    dictGet (d ++ [(stage, f)]) stage = some f := by
  induction d with
  | nil => simp [dictGet]
  | cons kv rest ih =>
      obtain ⟨k, v⟩ := kv
      by_cases hk : k = stage
      · rw [dictGet, if_pos hk] at h
        exact absurd h (by simp)
      · rw [dictGet, if_neg hk] at h
        rw [List.cons_append, dictGet, if_neg hk]
        exact ih h

/-- When the dict holds a handler for every stage the loop will visit, the
loop invokes them in ascending order, one per stage, and ends at
`stage + remaining`. -/
theorem play_battle_loop_complete {H : Type} (d : List (Nat × H))
    (h : Nat → H) (remaining : Nat) :
    ∀ stage : Nat,
      (∀ i, stage + 1 ≤ i → i ≤ stage + remaining → dictGet d i = some (h i)) →
      play_battle_loop d stage remaining =
        Except.ok ((List.range' (stage + 1) remaining).map (fun i => (i, h i)),
          stage + remaining) := by
  induction remaining with
  | zero => intro stage _; simp [play_battle_loop]
  | succ n ih =>
      intro stage hreg
      rw [play_battle_loop, hreg (stage + 1) (Nat.le_refl _) (by omega),
        ih (stage + 1) (fun i h1 h2 => hreg i (by omega) (by omega)),
        List.range'_succ (stage + 1) n 1]
      have harith : stage + 1 + n = stage + (n + 1) := by omega
      rw [List.map_cons, harith]

/-- Every stage recorded in a successful loop trace lies in
`[stage + 1, stage + remaining]`. -/
theorem play_battle_loop_mem {H : Type} (d : List (Nat × H))
    (remaining : Nat) :
    ∀ (stage : Nat) (tr : List (Nat × H)) (r : Nat),
      play_battle_loop d stage remaining = Except.ok (tr, r) →
      ∀ p ∈ tr, stage + 1 ≤ p.1 ∧ p.1 ≤ stage + remaining := by
  induction remaining with
  | zero =>
      intro stage tr r hok p hp
      simp [play_battle_loop] at hok
      rw [hok.1] at hp
      exact absurd hp (List.not_mem_nil p)
  | succ n ih =>
      intro stage tr r hok p hp
      rw [play_battle_loop] at hok
      cases hd : dictGet d (stage + 1) with
      | none => rw [hd] at hok; exact absurd hok (by simp)
      | some f =>
          rw [hd] at hok
          cases hrec : play_battle_loop d (stage + 1) n with
          | error e => rw [hrec] at hok; exact absurd hok (by simp)
          | ok pr =>
              obtain ⟨tr', r'⟩ := pr
              rw [hrec] at hok
              simp only [Except.ok.injEq, Prod.mk.injEq] at hok
              rw [← hok.1] at hp
              rcases List.mem_cons.1 hp with hp | hp
              · rw [hp]
                exact ⟨Nat.le_refl _, by show stage + 1 ≤ stage + (n + 1); omega⟩
              · have := ih (stage + 1) tr' r' hrec p hp
                omega

/-- C4: when the registry holds a handler `h i` for every stage index
`i ∈ [1, stage_count]`, `play_battle` invokes exactly the handlers of
stages `1, …, stage_count`, each exactly once, in ascending stage order,
and returns `stage_count`. -/
theorem play_battle_all_stages {H : Type} (sc : Nat) (d : List (Nat × H))
    (h : Nat → H)
    (hreg : ∀ i, 1 ≤ i → i ≤ sc → dictGet d i = some (h i)) :
    play_battle sc d =
      Except.ok ((List.range' 1 sc).map (fun i => (i, h i)), sc) := by
  have := play_battle_loop_complete d h sc 0 (fun i h1 h2 => hreg i h1 (by omega))
  simpa [play_battle] using this

/-- Witness for C4: two distinct handlers (nats `10` and `20`) registered
at stages 1 and 2; the battle plays them in order and returns 2. -/
theorem play_battle_all_stages_witness :
    (∀ i, 1 ≤ i → i ≤ 2 → dictGet [(1, 10), (2, 20)] i = some (i * 10)) ∧
    play_battle 2 [(1, 10), (2, 20)] = Except.ok ([(1, 10), (2, 20)], 2) := by
  have hreg : ∀ i, 1 ≤ i → i ≤ 2 →
      dictGet [(1, 10), (2, 20)] i = some (i * 10) := by
    intro i h1 h2
    interval_cases i <;> rfl
  refine ⟨hreg, ?_⟩
  have := play_battle_all_stages 2 [(1, 10), (2, 20)] (fun i => i * 10) hreg
  exact this

/-- C7: registering a handler at a free stage index succeeds and stores
it; registering at an index that already holds a handler fails on the
`assert` with the fatal message of `__add_stage_handler`. -/
theorem at_stage_register_once {H : Type} (d : List (Nat × H)) (stage : Nat)
    (f : H) :
    (dictGet d stage = none →
      add_stage_handler d stage f = Except.ok (d ++ [(stage, f)]) ∧
      dictGet (d ++ [(stage, f)]) stage = some f) ∧
    (∀ g, dictGet d stage = some g →
      add_stage_handler d stage f =
        Except.error "Cannot register multiple function to a single stage.") := by
  constructor
  · intro h
    exact ⟨by simp [add_stage_handler, h], dictGet_append_single d stage f h⟩
  · intro g hg
    simp [add_stage_handler, hg]

/-- Witness for C7: on an empty registry, registering handler `5` at stage
1 succeeds and stores it; a second registration at stage 1 fails. -/
theorem at_stage_register_once_witness :
    (dictGet ([] : List (Nat × Nat)) 1 = none ∧
     add_stage_handler ([] : List (Nat × Nat)) 1 5 = Except.ok [(1, 5)] ∧
     dictGet [(1, 5)] 1 = some 5) ∧
    add_stage_handler [(1, 5)] 1 7 =
      Except.error "Cannot register multiple function to a single stage." := by
  refine ⟨⟨rfl, ?_, ?_⟩, ?_⟩
  · exact ((at_stage_register_once ([] : List (Nat × Nat)) 1 5).1 rfl).1
  · exact ((at_stage_register_once ([] : List (Nat × Nat)) 1 5).1 rfl).2
  · exact (at_stage_register_once [(1, 5)] 1 7).2 5 rfl

/-- C8 counterexample: with `stage_count = 3`, registering a handler at
stage 0 — outside `[1, 3]` — is not rejected: `__add_stage_handler` checks
only for duplicates, the registration succeeds, and afterwards the
registry holds a handler at the out-of-range index 0. -/
theorem register_out_of_range_not_rejected :
    add_stage_handler ([] : List (Nat × Nat)) 0 7 = Except.ok [(0, 7)] ∧
    dictGet [(0, 7)] 0 = some 7 ∧
    ¬(1 ≤ 0 ∧ 0 ≤ 3) := by
  refine ⟨?_, rfl, by decide⟩
  simp [add_stage_handler, dictGet]

/-- C8 amended: registration checks only for a duplicate index — any
fresh index, in range or not, is accepted and stored — while the handler
indices `play_battle` actually invokes all lie within
`[1, stage_count]`. -/
theorem register_unchecked_play_battle_in_range {H : Type} :
    (∀ (d : List (Nat × H)) (stage : Nat) (f : H), dictGet d stage = none →
      add_stage_handler d stage f = Except.ok (d ++ [(stage, f)])) ∧
    (∀ (sc : Nat) (d : List (Nat × H)) (tr : List (Nat × H)) (r : Nat),
      play_battle sc d = Except.ok (tr, r) →
      ∀ p ∈ tr, 1 ≤ p.1 ∧ p.1 ≤ sc) := by
  constructor
  · intro d stage f h
    simp [add_stage_handler, h]
  · intro sc d tr r hok p hp
    have := play_battle_loop_mem d sc 0 tr r hok p hp
    omega

/-- Witness for the amended C8: registering at the out-of-range index 9
succeeds; the single invoked stage of a one-stage battle is within
`[1, 1]`. -/
theorem register_unchecked_witness :
    add_stage_handler ([] : List (Nat × Nat)) 9 7 = Except.ok [(9, 7)] ∧
    (1 ≤ (1, 5).1 ∧ (1, 5).1 ≤ 1) := by
  constructor
  · exact (@register_unchecked_play_battle_in_range Nat).1 [] 9 7 rfl
  · exact (@register_unchecked_play_battle_in_range Nat).2 1 [(1, 5)] [(1, 5)] 1
      rfl (1, 5) (by simp)

/-- The order-change branch with both objects supplied and in range: the
full trace of `use_master_skill`, with the second tap's x written exactly
as the code computes it (`x += change_distance * (obj2 - obj)` after the
first tap's `x += change_distance * (obj - 1)`). -/
theorem use_master_skill_order_change_trace (b : Buttons) (skill o o2 : Int)
    (h : 1 ≤ o ∧ o ≤ 3 ∧ 4 ≤ o2 ∧ o2 ≤ 6) :
    use_master_skill b ⟨false, true⟩ skill (some o) (some o2) =
      master_skill_opening b skill ++
      [Event.tapRect ⟨b.change.x + b.change_distance * (o - 1),
                      b.change.y, b.change.w, b.change.h⟩,
       Event.tapRect ⟨b.change.x + b.change_distance * (o - 1)
                        + b.change_distance * (o2 - o),
                      b.change.y, b.change.w, b.change.h⟩,
       Event.tapImage "change",
       Event.wait 1] := by
  unfold use_master_skill
  rw [if_neg (by decide : ¬ ((⟨false, true⟩ : Screen).choose_object = true)),
    if_pos (rfl : (⟨false, true⟩ : Screen).order_change = true)]
  show master_skill_opening b skill ++
      (if 1 ≤ o ∧ o ≤ 3 ∧ 4 ≤ o2 ∧ o2 ≤ 6 then _ else _) ++ [Event.wait 1] = _
  rw [if_pos h]
  simp

/-- C6: in the order-change branch with `1 ≤ obj ≤ 3` and `4 ≤ obj2 ≤ 6`,
the second tap's x equals the first tap's x plus
`change_distance * (obj2 - obj)` — the additive offset from the first tap
position — its y, w, h equal the first tap's, and the `change`
confirmation tap follows. -/
theorem use_master_skill_order_change_relative (b : Buttons)
    (skill o o2 : Int) (h1 : 1 ≤ o) (h2 : o ≤ 3) (h3 : 4 ≤ o2) (h4 : o2 ≤ 6) :
    use_master_skill b ⟨false, true⟩ skill (some o) (some o2) =
      master_skill_opening b skill ++
      [Event.tapRect ⟨b.change.x + b.change_distance * (o - 1),
                      b.change.y, b.change.w, b.change.h⟩,
       Event.tapRect ⟨b.change.x + b.change_distance * (o - 1)
                        + b.change_distance * (o2 - o),
                      b.change.y, b.change.w, b.change.h⟩,
       Event.tapImage "change",
       Event.wait 1] :=
  use_master_skill_order_change_trace b skill o o2 ⟨h1, h2, h3, h4⟩

/-- Witness for C6 at `obj = 2`, `obj2 = 5` on the sample layout: first
tap at x = 320, second at 320 + 170 * 3 = 830, then the confirmation. -/
theorem use_master_skill_order_change_relative_witness :
    use_master_skill sampleButtons ⟨false, true⟩ 1 (some 2) (some 5) =
      [Event.waitUntil "attack",
       Event.tapRect ⟨1200, 100, 30, 30⟩,
       Event.wait 1,
       Event.tapRect ⟨1000, 120, 40, 40⟩,
       Event.wait 1,
       Event.tapRect ⟨320, 350, 60, 60⟩,
       Event.tapRect ⟨830, 350, 60, 60⟩,
       Event.tapImage "change",
       Event.wait 1] := by
  have := use_master_skill_order_change_relative sampleButtons 1 2 5
    (by decide) (by decide) (by decide) (by decide)
  exact this.trans (by decide)

/-- C10: under the same bounds, the accumulated relative offset equals the
absolute one: the second tap rectangle is
`(change.x + change_distance * (obj2 - 1), change.y, change.w, change.h)`,
independent of `obj`. -/
theorem use_master_skill_order_change_absolute (b : Buttons)
    (skill o o2 : Int) (h1 : 1 ≤ o) (h2 : o ≤ 3) (h3 : 4 ≤ o2) (h4 : o2 ≤ 6) :
    use_master_skill b ⟨false, true⟩ skill (some o) (some o2) =
      master_skill_opening b skill ++
      [Event.tapRect ⟨b.change.x + b.change_distance * (o - 1),
                      b.change.y, b.change.w, b.change.h⟩,
       Event.tapRect ⟨b.change.x + b.change_distance * (o2 - 1),
                      b.change.y, b.change.w, b.change.h⟩,
       Event.tapImage "change",
       Event.wait 1] := by
  rw [use_master_skill_order_change_trace b skill o o2 ⟨h1, h2, h3, h4⟩]
  have harith : b.change.x + b.change_distance * (o - 1)
      + b.change_distance * (o2 - o)
      = b.change.x + b.change_distance * (o2 - 1) := by ring
  rw [harith]

/-- Witness for C10 at `obj = 3`, `obj2 = 4`: the second tap sits at
x = 150 + 170 * 3 = 660, the slot-4 absolute position. -/
theorem use_master_skill_order_change_absolute_witness :
    use_master_skill sampleButtons ⟨false, true⟩ 1 (some 3) (some 4) =
      [Event.waitUntil "attack",
       Event.tapRect ⟨1200, 100, 30, 30⟩,
       Event.wait 1,
       Event.tapRect ⟨1000, 120, 40, 40⟩,
       Event.wait 1,
       Event.tapRect ⟨490, 350, 60, 60⟩,
       Event.tapRect ⟨660, 350, 60, 60⟩,
       Event.tapImage "change",
       Event.wait 1] := by
  have := use_master_skill_order_change_absolute sampleButtons 1 3 4
    (by decide) (by decide) (by decide) (by decide)
  exact this.trans (by decide)

/-- C9: every missing-argument or out-of-range object case of
`use_master_skill` produces exactly the opening events, one logged error
and the final wait — no tap for the unresolved selection — and, the
function being total, control returns normally to the calling script.
Cases: single-object prompt with `obj` absent or outside `[1, 3]`
(whatever the `order_change` flag), and order-change prompt with either
object absent or the pair violating `1 ≤ obj ≤ 3 ∧ 4 ≤ obj2 ≤ 6`. -/
theorem use_master_skill_permissive_errors (b : Buttons) (skill : Int) :
    (∀ (oc : Bool) (obj2 : Option Int),
      use_master_skill b ⟨true, oc⟩ skill none obj2 =
        master_skill_opening b skill ++
        [Event.logError "Must choose a master skill object.", Event.wait 1]) ∧
    (∀ (oc : Bool) (o : Int) (obj2 : Option Int), ¬(1 ≤ o ∧ o ≤ 3) →
      use_master_skill b ⟨true, oc⟩ skill (some o) obj2 =
        master_skill_opening b skill ++
        [Event.logError "Invalid master skill object.", Event.wait 1]) ∧
    (∀ obj2 : Option Int,
      use_master_skill b ⟨false, true⟩ skill none obj2 =
        master_skill_opening b skill ++
        [Event.logError "Must choose two objects for Order Change.",
         Event.wait 1]) ∧
    (∀ obj : Option Int,
      use_master_skill b ⟨false, true⟩ skill obj none =
        master_skill_opening b skill ++
        [Event.logError "Must choose two objects for Order Change.",
         Event.wait 1]) ∧
    (∀ o o2 : Int, ¬(1 ≤ o ∧ o ≤ 3 ∧ 4 ≤ o2 ∧ o2 ≤ 6) →
      use_master_skill b ⟨false, true⟩ skill (some o) (some o2) =
        master_skill_opening b skill ++
        [Event.logError "Invalid master skill object.", Event.wait 1]) := by
  refine ⟨?_, ?_, ?_, ?_, ?_⟩
  · intro oc obj2
    unfold use_master_skill
    rw [if_pos (rfl : (⟨true, oc⟩ : Screen).choose_object = true)]
    rfl
  · intro oc o obj2 ho
    unfold use_master_skill
    rw [if_pos (rfl : (⟨true, oc⟩ : Screen).choose_object = true)]
    show master_skill_opening b skill ++
        (if 1 ≤ o ∧ o ≤ 3 then _ else _) ++ [Event.wait 1] = _
    rw [if_neg ho]
    rfl
  · intro obj2
    unfold use_master_skill
    rw [if_neg (by decide : ¬ ((⟨false, true⟩ : Screen).choose_object = true)),
      if_pos (rfl : (⟨false, true⟩ : Screen).order_change = true)]
    cases obj2 <;> rfl
  · intro obj
    unfold use_master_skill
    rw [if_neg (by decide : ¬ ((⟨false, true⟩ : Screen).choose_object = true)),
      if_pos (rfl : (⟨false, true⟩ : Screen).order_change = true)]
    cases obj <;> rfl
  · intro o o2 ho
    unfold use_master_skill
    rw [if_neg (by decide : ¬ ((⟨false, true⟩ : Screen).choose_object = true)),
      if_pos (rfl : (⟨false, true⟩ : Screen).order_change = true)]
    show master_skill_opening b skill ++
        (if 1 ≤ o ∧ o ≤ 3 ∧ 4 ≤ o2 ∧ o2 ≤ 6 then _ else _)
        ++ [Event.wait 1] = _
    rw [if_neg ho]
    rfl

/-- Witness for C9: two concrete bad calls on the sample layout — a
single-object prompt with the out-of-range object 0, and an order-change
prompt with both objects missing — each yields the opening, one logged
error and the wait. -/
theorem use_master_skill_permissive_errors_witness :
    use_master_skill sampleButtons ⟨true, false⟩ 1 (some 0) none =
      master_skill_opening sampleButtons 1 ++
      [Event.logError "Invalid master skill object.", Event.wait 1] ∧
    use_master_skill sampleButtons ⟨false, true⟩ 1 none none =
      master_skill_opening sampleButtons 1 ++
      [Event.logError "Must choose two objects for Order Change.",
       Event.wait 1] :=
  ⟨(use_master_skill_permissive_errors sampleButtons 1).2.1 false 0 none
      (by decide),
   (use_master_skill_permissive_errors sampleButtons 1).2.2.2.1 none⟩

end GameBots
